import Mathlib

/-!
# Driver Reserves — verification of the reservation core

Shallow embedding of the reservation core of `src/pages/index.tsx`
(the latest revision of the single-page driver-reserve app; the files
under `src/unnamed/` are earlier revisions of the same component).

Modelling conventions:
* an instant (JS `Date`, stored as an ISO string) is its epoch value in
  milliseconds, an `Int` (`Date.getTime()`), since the code only ever
  compares instants and adds millisecond offsets to them;
* the Supabase `update` call is modelled as the record patch it sends:
  an operation "performs no store write" exactly when the embedded
  function returns `none`;
* React state setters become explicit state passing: the realtime
  channel handler is a function from the previous `drivers` list to the
  next one.
-/

/-- Driver record (`type Driver` in `src/pages/index.tsx`).
`reserve_until`, `reserve_started_at` are epoch milliseconds. -/
structure Driver where
  id : String
  name : String
  location : Option String
  available_time : Option String
  reserve_until : Option Int
  reserve_started_at : Option Int
  reserve_note : Option String
  deriving Repr, DecidableEq

/-- Driver note record (`type DriverNote` in `src/pages/index.tsx`);
`created_at` is epoch milliseconds. -/
structure DriverNote where
  id : String
  driver_id : String
  body : String
  created_at : Int
  deriving Repr, DecidableEq

/-! ## JavaScript primitives used by the code -/

/-- Value of a leading run of decimal digits; `none` when there is no digit
(JS `parseInt` returns `NaN` then). -/
def digitsValue (cs : List Char) : Option Nat :=
  let ds := cs.takeWhile Char.isDigit
  if ds.isEmpty then none
  else some (ds.foldl (fun acc c => acc * 10 + (c.toNat - '0'.toNat)) 0)

/-- JS `parseInt(s, 10)`: skip leading whitespace, read an optional sign and
then a longest run of decimal digits; `none` models `NaN`. -/
def parseIntJS (s : String) : Option Int :=
  match s.toList.dropWhile Char.isWhitespace with
  | '-' :: rest => (digitsValue rest).map (fun n => -(n : Int))
  | '+' :: rest => (digitsValue rest).map (fun n => (n : Int))
  | cs => (digitsValue cs).map (fun n => (n : Int))

/-- JS `String.prototype.padStart(n, c)`. -/
def padStart (s : String) (n : Nat) (c : Char) : String :=
  String.mk (List.replicate (n - s.length) c) ++ s

/-- JS `String.prototype.trim()`: strip leading and trailing whitespace. -/
def trimJS (s : String) : String :=
  String.mk
    (((s.toList.dropWhile Char.isWhitespace).reverse.dropWhile
        Char.isWhitespace).reverse)

/-! ## Reserve Timer Engine -/

/-- `fmtTimeLeft` (`src/pages/index.tsx` lines 28–34): renders a remaining
duration in milliseconds as `m:ss`, with the fixed label `"0:00"` for
non-positive input. -/
def fmtTimeLeft (msLeft : Int) : String :=
  if msLeft ≤ 0 then "0:00"
  else
    let s := msLeft.toNat / 1000
    let m := s / 60
    let ss := s % 60
    toString m ++ ":" ++ padStart (toString ss) 2 '0'

/-- The patch `confirmReserve` sends to the `drivers` table
(`src/pages/index.tsx` lines 173–177). -/
structure ReservePatch where
  reserve_until : Int
  reserve_started_at : Int
  reserve_note : Option String
  deriving Repr, DecidableEq

/-- `confirmReserve` (`src/pages/index.tsx` lines 157–194), as the patch it
writes for the selected driver — `none` when it returns without writing.
`reserveMinutes` and `reserveNote` are the modal's input strings,
`reserveDriverId` the selected driver's id, `drivers` the current local
snapshot, `now` the current instant (`new Date()`).
JS `reserveMinutes || "15"` falls back to `"15"` exactly on the empty
string, and `Number.isFinite(parseInt(...))` fails exactly on `NaN`. -/
def confirmReserve (reserveMinutes reserveNote : String)
    (drivers : List Driver) (reserveDriverId : String) (now : Int) :
    Option ReservePatch :=
  match parseIntJS (if reserveMinutes = "" then "15" else reserveMinutes) with
  | none => none
  | some minutes =>
    if minutes ≤ 0 then none
    else
      match drivers.find? (fun d => d.id == reserveDriverId) with
      | none => none
      | some target =>
        let base := target.reserve_until.getD now
        let until_ := max base now + minutes * 60000
        some { reserve_until := until_
               reserve_started_at := now
               reserve_note :=
                 if trimJS reserveNote = "" then none
                 else some (trimJS reserveNote) }

/-- `resetReserve` (`src/pages/index.tsx` lines 196–202): the single update
it issues, applied to a driver record. -/
def resetReserve (d : Driver) : Driver :=
  { d with reserve_until := none, reserve_started_at := none,
           reserve_note := none }

/-- Remaining milliseconds as computed per row in the render
(`src/pages/index.tsx` line 352): `until ? until.getTime() - now : 0`. -/
def rowMsLeft (d : Driver) (now : Int) : Int :=
  match d.reserve_until with
  | some t => t - now
  | none => 0

/-- `active` per row (`src/pages/index.tsx` line 353):
`!!until && msLeft > 0`. -/
def rowActive (d : Driver) (now : Int) : Bool :=
  d.reserve_until.isSome && decide (0 < rowMsLeft d now)

/-! ## Change Propagation Layer -/

/-- A realtime change event from the `drivers-rt` channel: DELETE carries
`payload.old?.id` (possibly absent), INSERT/UPDATE carry `payload.new`. -/
inductive DriverChange where
  | delete (oldId : Option String)
  | upsert (row : Driver)
  deriving Repr, DecidableEq

/-- The `drivers-rt` channel handler (`src/pages/index.tsx` lines 126–140)
as a function from the previous snapshot to the next: DELETE splices out
the first index whose id equals `payload.old?.id` (no-op when none
matches), INSERT/UPDATE overwrites at the first index with the row's id,
else pushes the row at the end. -/
def applyDriverChange (ev : DriverChange) (prev : List Driver) : List Driver :=
  match ev with
  | .delete oldId =>
    match prev.findIdx? (fun d => some d.id == oldId) with
    | some idx => prev.eraseIdx idx
    | none => prev
  | .upsert row =>
    match prev.findIdx? (fun d => d.id == row.id) with
    | some idx => prev.set idx row
    | none => prev ++ [row]

/-! ## Note management -/

/-- Local notes view plus durable storage: `notes` is the displayed list
(newest first), `stored` the rows of the `driver_notes` table. -/
structure NotesState where
  stored : List DriverNote
  notes : List DriverNote
  deriving Repr, DecidableEq

/-- `addProfileNote` (`src/pages/index.tsx` lines 229–240): a blank
(empty or whitespace-only) `newNote` returns without writing; otherwise
the insert stores a row whose `body` is the trimmed input and whose id
and timestamp the server assigns (`freshId`, `now` here), and the local
list becomes `[data, ...prev].slice(0, 10)`. -/
def addProfileNote (freshId : String) (now : Int) (driverId newNote : String)
    (st : NotesState) : NotesState :=
  if trimJS newNote = "" then st
  else
    let note : DriverNote :=
      { id := freshId, driver_id := driverId, body := trimJS newNote,
        created_at := now }
    { stored := st.stored ++ [note]
      notes := (note :: st.notes).take 10 }

/-- Spec-side formatter, for comparison with `fmtTimeLeft`.
Modelled from the spec: "remaining duration renders as `minutes:seconds`
with seconds zero-padded to two digits", over the floored total seconds. -/
def fmtSpecMinSec (msLeft : Int) : String :=
  let total := msLeft.toNat / 1000
  toString (total / 60) ++ ":" ++ padStart (toString (total % 60)) 2 '0'

/-! ## Sample data for concrete witnesses -/

/-- A driver with no active reservation. -/
def sampleDriver : Driver :=
  { id := "d1", name := "Ann", location := none, available_time := none,
    reserve_until := none, reserve_started_at := none, reserve_note := none }

/-- A driver whose reservation runs until instant 2000. -/
def sampleReserved : Driver :=
  { id := "d2", name := "Bob", location := none, available_time := none,
    reserve_until := some 2000, reserve_started_at := some 0,
    reserve_note := none }

/-- A third driver, distinct id from the two above. -/
def sampleOther : Driver :=
  { sampleDriver with id := "d0", name := "Cal" }

/-- An incoming realtime row carrying `sampleDriver`'s id. -/
def sampleUpd : Driver :=
  { sampleDriver with name := "Dee" }

/-- Ten displayed notes over ten stored rows. -/
def sampleNotesState : NotesState :=
  { stored := (List.range 10).map
      (fun k => { id := toString k, driver_id := "d1", body := "b",
                  created_at := (k : Int) })
    notes := (List.range 10).map
      (fun k => { id := toString k, driver_id := "d1", body := "b",
                  created_at := (k : Int) }) }

/-! ## Helper lemmas -/

/-- `findIdx?` on a list whose front segment all fails the predicate and
whose next element passes it finds exactly that segment's length. -/
lemma findIdx?_firstHit_middle {α : Type} (p : α → Bool) (l1 l2 : List α)
    (t : α) (h1 : ∀ x ∈ l1, p x = false) (ht : p t = true) :
    List.findIdx? p (l1 ++ t :: l2) = some l1.length := by
  rw [List.findIdx?_append, List.findIdx?_eq_none_iff.mpr h1,
    List.findIdx?_cons, if_pos ht]
  simp

/-! ## Claims -/

/-- Claim C1: for every driver record and every positive number of minutes
`m` the confirm-reserve write sets the new `reserve_until` to
`max(base, now) + m` minutes, where `base` is the record's current
`reserve_until` if present and `now` otherwise; in particular a record
with no reservation yields `now + m` minutes, and one with an active
reservation ending at `T > now` yields `T + m` minutes. -/
theorem confirmReserve_extends_from_max_base
    (s note : String) (l : List Driver) (i : String) (now m : Int)
    (d : Driver)
    (hparse : parseIntJS (if s = "" then "15" else s) = some m)
    (hm : 0 < m)
    (hfind : l.find? (fun x => x.id == i) = some d) :
    ∃ u, confirmReserve s note l i now = some u ∧
      u.reserve_until = max (d.reserve_until.getD now) now + m * 60000 ∧
      (d.reserve_until = none → u.reserve_until = now + m * 60000) ∧
      (∀ T, d.reserve_until = some T → now < T →
        u.reserve_until = T + m * 60000) := by
  unfold confirmReserve
  rw [hparse]
  simp only [if_neg (not_le.mpr hm), hfind]
  refine ⟨_, rfl, rfl, ?_, ?_⟩
  · intro h
    simp [h]
  · intro T hT hlt
    simp [hT, max_eq_left hlt.le]

/-- Concrete run of `confirmReserve_extends_from_max_base`: extending the
driver reserved until 2000 by 10 minutes at now = 1000 writes
`reserve_until = 2000 + 600000`. -/
theorem confirmReserve_extends_from_max_base_witness :
    (confirmReserve "10" "" [sampleReserved] "d2" 1000).map
        ReservePatch.reserve_until = some (2000 + 10 * 60000) := by
  obtain ⟨u, hu, _, _, hT⟩ :=
    confirmReserve_extends_from_max_base "10" "" [sampleReserved] "d2"
      1000 10 sampleReserved (by decide) (by decide) (by decide)
  rw [hu]
  simp [hT 2000 rfl (by decide)]

/-- Claim C2: the reset operation yields `reserve_until`,
`reserve_started_at` and `reserve_note` all null in its single update,
regardless of the record's prior state, and touches nothing else. -/
theorem resetReserve_clears_all_three (d : Driver) :
    (resetReserve d).reserve_until = none ∧
    (resetReserve d).reserve_started_at = none ∧
    (resetReserve d).reserve_note = none ∧
    (resetReserve d).id = d.id ∧
    (resetReserve d).name = d.name ∧
    (resetReserve d).location = d.location ∧
    (resetReserve d).available_time = d.available_time :=
  ⟨rfl, rfl, rfl, rfl, rfl, rfl, rfl⟩

/-- Claim C3: when the parsed minutes value is non-numeric (`parseIntJS`
gives `none`) or non-positive, `confirmReserve` performs no store write:
it returns before any update is issued. -/
theorem confirmReserve_rejects_invalid_minutes
    (s note : String) (l : List Driver) (i : String) (now : Int)
    (h : ∀ m, parseIntJS (if s = "" then "15" else s) = some m → m ≤ 0) :
    confirmReserve s note l i now = none := by
  unfold confirmReserve
  cases hp : parseIntJS (if s = "" then "15" else s) with
  | none => rfl
  | some m => simp [h m hp]

/-- Concrete run of `confirmReserve_rejects_invalid_minutes`: a minutes
field of `"abc"` produces no write. -/
theorem confirmReserve_rejects_invalid_minutes_witness :
    confirmReserve "abc" "note" [sampleDriver] "d1" 0 = none :=
  confirmReserve_rejects_invalid_minutes "abc" "note" [sampleDriver] "d1" 0
    (fun m hm => by
      rw [show parseIntJS (if ("abc" : String) = "" then "15" else "abc")
            = none from rfl] at hm
      exact Option.noConfusion hm)

/-- Claim C10: an empty minutes field is not rejected: `confirmReserve`
substitutes the default `"15"` and performs a 15-minute extension for the
selected driver. -/
theorem confirmReserve_empty_minutes_defaults_15
    (note : String) (l : List Driver) (i : String) (now : Int) (d : Driver)
    (hfind : l.find? (fun x => x.id == i) = some d) :
    ∃ u, confirmReserve "" note l i now = some u ∧
      u.reserve_until = max (d.reserve_until.getD now) now + 15 * 60000 := by
  unfold confirmReserve
  rw [if_pos rfl, show parseIntJS "15" = some 15 from rfl]
  simp only [if_neg (by decide : ¬(15 : Int) ≤ 0), hfind]
  exact ⟨_, rfl, rfl⟩

/-- Concrete run of `confirmReserve_empty_minutes_defaults_15`: confirming
with an empty minutes field for an unreserved driver at now = 1000 writes
`reserve_until = 1000 + 900000`. -/
theorem confirmReserve_empty_minutes_defaults_15_witness :
    (confirmReserve "" "" [sampleDriver] "d1" 1000).map
        ReservePatch.reserve_until =
      some (max ((sampleDriver.reserve_until).getD 1000) 1000 + 15 * 60000) := by
  obtain ⟨u, hu, hru⟩ :=
    confirmReserve_empty_minutes_defaults_15 "" [sampleDriver] "d1" 1000
      sampleDriver (by decide)
  rw [hu]
  simp [hru]

/-- Claim C6: a row renders as actively reserved iff `reserve_until` is
non-null and strictly later than now; when it is null or lapsed
(`reserve_until ≤ now`), the remaining time is non-positive and the row
renders as not reserved. The render reads the record without mutating it,
so the stored field is never cleared by display. -/
theorem rowActive_iff_future_reserve (d : Driver) (now : Int) :
    (rowActive d now = true ↔
      ∃ t, d.reserve_until = some t ∧ now < t) ∧
    (rowActive d now = true → 0 < rowMsLeft d now) ∧
    (∀ t, d.reserve_until = some t → t ≤ now →
      rowMsLeft d now ≤ 0 ∧ rowActive d now = false) ∧
    (d.reserve_until = none →
      rowMsLeft d now ≤ 0 ∧ rowActive d now = false) := by
  cases h : d.reserve_until with
  | none =>
    refine ⟨?_, ?_, ?_, ?_⟩ <;> simp [rowActive, rowMsLeft, h]
  | some t =>
    refine ⟨?_, ?_, ?_, ?_⟩ <;> simp [rowActive, rowMsLeft, h]

/-- Concrete run of `rowActive_iff_future_reserve`: the driver reserved
until 2000, viewed at now = 2500, has lapsed — remaining is non-positive
and the row is inactive. -/
theorem rowActive_iff_future_reserve_witness :
    rowMsLeft sampleReserved 2500 ≤ 0 ∧
    rowActive sampleReserved 2500 = false :=
  (rowActive_iff_future_reserve sampleReserved 2500).2.2.1 2000 rfl
    (by decide)

/-- Claim C7: for every positive remaining duration `fmtTimeLeft` renders
minutes and seconds with the seconds zero-padded to two digits (the
spec-side formatter `fmtSpecMinSec`); 90 seconds renders as `"1:30"`,
5 seconds as `"0:05"`, and every non-positive duration renders as the
fixed zero label `"0:00"`. -/
theorem fmtTimeLeft_matches_spec (ms : Int) :
    (0 < ms → fmtTimeLeft ms = fmtSpecMinSec ms) ∧
    (ms ≤ 0 → fmtTimeLeft ms = "0:00") ∧
    fmtTimeLeft 90000 = "1:30" ∧
    fmtTimeLeft 5000 = "0:05" := by
  refine ⟨?_, ?_, by decide, by decide⟩
  · intro h
    rw [fmtTimeLeft, if_neg (not_le.mpr h)]
    rfl
  · intro h
    rw [fmtTimeLeft, if_pos h]

/-- Concrete run of `fmtTimeLeft_matches_spec`: 90 seconds remaining
agrees with the spec-side formatter, and a lapsed duration renders as the
zero label. -/
theorem fmtTimeLeft_matches_spec_witness :
    fmtTimeLeft 90000 = fmtSpecMinSec 90000 ∧ fmtTimeLeft (-1) = "0:00" :=
  ⟨(fmtTimeLeft_matches_spec 90000).1 (by decide),
   (fmtTimeLeft_matches_spec (-1)).2.1 (by decide)⟩

/-- Claim C4: applying a change event to a local snapshot — a delete
removes the record with the matching id when present and is a no-op for
an unknown id; an insert or update replaces the record with that id in
place, leaving every other entry in position, and appends the incoming
row when no record with that id exists locally. -/
theorem applyDriverChange_spec :
    (∀ (l1 l2 : List Driver) (t : Driver) (i : String),
        t.id = i → (∀ d ∈ l1, d.id ≠ i) →
        applyDriverChange (.delete (some i)) (l1 ++ t :: l2) = l1 ++ l2) ∧
    (∀ (l : List Driver) (i : String), (∀ d ∈ l, d.id ≠ i) →
        applyDriverChange (.delete (some i)) l = l) ∧
    (∀ (l1 l2 : List Driver) (t row : Driver),
        t.id = row.id → (∀ d ∈ l1, d.id ≠ row.id) →
        applyDriverChange (.upsert row) (l1 ++ t :: l2) = l1 ++ row :: l2) ∧
    (∀ (l : List Driver) (row : Driver), (∀ d ∈ l, d.id ≠ row.id) →
        applyDriverChange (.upsert row) l = l ++ [row]) := by
  refine ⟨?_, ?_, ?_, ?_⟩
  · intro l1 l2 t i hti hfresh
    simp only [applyDriverChange]
    rw [findIdx?_firstHit_middle _ _ _ _
      (fun d hd => by simp [beq_eq_false_iff_ne, hfresh d hd])
      (by simp [beq_iff_eq, hti])]
    show (l1 ++ t :: l2).eraseIdx l1.length = l1 ++ l2
    rw [List.eraseIdx_append_of_length_le (le_refl _)]
    simp
  · intro l i hfresh
    simp only [applyDriverChange]
    rw [List.findIdx?_eq_none_iff.mpr
      (fun d hd => by simp [beq_eq_false_iff_ne, hfresh d hd])]
  · intro l1 l2 t row hti hfresh
    simp only [applyDriverChange]
    rw [findIdx?_firstHit_middle _ _ _ _
      (fun d hd => by simp [beq_eq_false_iff_ne, hfresh d hd])
      (by simp [beq_iff_eq, hti])]
    show (l1 ++ t :: l2).set l1.length row = l1 ++ row :: l2
    rw [List.set_append, if_neg (lt_irrefl _)]
    simp
  · intro l row hfresh
    simp only [applyDriverChange]
    rw [List.findIdx?_eq_none_iff.mpr
      (fun d hd => by simp [beq_eq_false_iff_ne, hfresh d hd])]

/-- Concrete run of `applyDriverChange_spec` on two-driver snapshots:
delete of a present id removes it, delete of id "zz" is a no-op, an
update row with `sampleDriver`'s id replaces it in place after
`sampleOther`, and an unknown row is appended. -/
theorem applyDriverChange_spec_witness :
    applyDriverChange (.delete (some "d1"))
        ([sampleOther] ++ sampleDriver :: []) = [sampleOther] ++ [] ∧
    applyDriverChange (.delete (some "zz")) [sampleDriver] =
      [sampleDriver] ∧
    applyDriverChange (.upsert sampleUpd)
        ([sampleOther] ++ sampleDriver :: []) =
      [sampleOther] ++ sampleUpd :: [] ∧
    applyDriverChange (.upsert sampleUpd) [sampleOther] =
      [sampleOther] ++ [sampleUpd] :=
  ⟨applyDriverChange_spec.1 [sampleOther] [] sampleDriver "d1" rfl
      (by decide),
   applyDriverChange_spec.2.1 [sampleDriver] "zz" (by decide),
   applyDriverChange_spec.2.2.1 [sampleOther] [] sampleDriver sampleUpd
      rfl (by decide),
   applyDriverChange_spec.2.2.2 [sampleOther] sampleUpd (by decide)⟩

/-- Claim C5: applying the same insert-or-update event twice leaves the
local snapshot identical to applying it once — replace-by-id is
idempotent, which is what makes the echo of the issuing viewer's own
write through the change feed harmless. -/
theorem applyDriverChange_upsert_idem (row : Driver) (l : List Driver) :
    applyDriverChange (.upsert row) (applyDriverChange (.upsert row) l) =
      applyDriverChange (.upsert row) l := by
  have hrow : (row.id == row.id) = true := beq_self_eq_true row.id
  cases h : List.findIdx? (fun d => d.id == row.id) l with
  | some idx =>
    have hone : applyDriverChange (.upsert row) l = l.set idx row := by
      simp only [applyDriverChange, h]
    have h2 : List.findIdx? (fun d => d.id == row.id) (l.set idx row)
        = some idx := by
      rw [List.findIdx?_eq_some_iff_getElem] at h ⊢
      obtain ⟨hlt, hp, hmin⟩ := h
      refine ⟨by simpa using hlt, ?_, ?_⟩
      · rw [List.getElem_set, if_pos rfl]
        exact hrow
      · intro j hj
        rw [List.getElem_set, if_neg (by omega)]
        exact hmin j hj
    rw [hone]
    simp only [applyDriverChange, h2, List.set_set]
  | none =>
    have hone : applyDriverChange (.upsert row) l = l ++ [row] := by
      simp only [applyDriverChange, h]
    have h2 : List.findIdx? (fun d => d.id == row.id) (l ++ [row])
        = some l.length := by
      rw [List.findIdx?_append, h, List.findIdx?_cons, if_pos hrow]
      simp
    rw [hone]
    simp only [applyDriverChange, h2]
    rw [List.set_append, if_neg (lt_irrefl _)]
    simp

/-- Claim C8, counterexample: confirming with the note `" x "` succeeds
but stores `reserve_note = some "x"` — the trimmed text, not the
caller-supplied `" x "` — so the write does not carry the note verbatim. -/
theorem confirmReserve_note_not_verbatim :
    (confirmReserve "15" " x " [sampleDriver] "d1" 0).map
        ReservePatch.reserve_note = some (some "x") ∧
    ("x" : String) ≠ " x " := by
  constructor
  · rfl
  · decide

/-- Claim C8 as amended: every successful confirm-reserve write sets
`reserve_started_at` to `now` and replaces `reserve_note` with the
trimmed caller-supplied note, or clears it to null when the note is
empty or whitespace-only. -/
theorem confirmReserve_sets_started_at_and_trimmed_note
    (s note : String) (l : List Driver) (i : String) (now : Int)
    (u : ReservePatch)
    (h : confirmReserve s note l i now = some u) :
    u.reserve_started_at = now ∧
    u.reserve_note =
      (if trimJS note = "" then none else some (trimJS note)) := by
  simp only [confirmReserve] at h
  split at h
  · exact absurd h (by simp)
  · split at h
    · exact absurd h (by simp)
    · split at h
      · exact absurd h (by simp)
      · obtain rfl := Option.some.injEq _ _ ▸ h
        exact ⟨rfl, rfl⟩

/-- Concrete run of `confirmReserve_sets_started_at_and_trimmed_note`:
the successful 15-minute reserve with note `"hi"` at now = 0 has
`reserve_started_at = 0` and the trimmed note. -/
theorem confirmReserve_sets_started_at_and_trimmed_note_witness :
    (⟨900000, 0, some "hi"⟩ : ReservePatch).reserve_started_at = 0 ∧
    (⟨900000, 0, some "hi"⟩ : ReservePatch).reserve_note =
      (if trimJS "hi" = "" then none else some (trimJS "hi")) :=
  confirmReserve_sets_started_at_and_trimmed_note "15" "hi" [sampleDriver]
    "d1" 0 ⟨900000, 0, some "hi"⟩ (by decide)

/-- Claim C9: a blank note body is rejected with no store write and no
local change; a non-blank body yields a note carrying the fresh server
id and timestamp, prepended to the displayed list capped at 10 — on a
display of 10 the oldest (last) displayed note drops while the displayed
count stays 10 — and the stored table always grows by the one new row
(11 rows when it held 10). -/
theorem addProfileNote_spec (freshId : String) (now : Int)
    (driverId body : String) (st : NotesState) :
    (trimJS body = "" → addProfileNote freshId now driverId body st = st) ∧
    (trimJS body ≠ "" →
      ∃ note : DriverNote, note.id = freshId ∧ note.driver_id = driverId ∧
        note.created_at = now ∧
        (addProfileNote freshId now driverId body st).notes =
          (note :: st.notes).take 10 ∧
        (addProfileNote freshId now driverId body st).stored =
          st.stored ++ [note] ∧
        (st.notes.length = 10 →
          (addProfileNote freshId now driverId body st).notes =
            note :: st.notes.dropLast ∧
          (addProfileNote freshId now driverId body st).notes.length
            = 10) ∧
        (st.stored.length = 10 →
          (addProfileNote freshId now driverId body st).stored.length
            = 11)) := by
  constructor
  · intro h
    simp [addProfileNote, h]
  · intro h
    refine ⟨{ id := freshId, driver_id := driverId, body := trimJS body,
              created_at := now }, rfl, rfl, rfl, ?_, ?_, ?_, ?_⟩
    · simp [addProfileNote, h]
    · simp [addProfileNote, h]
    · intro hlen
      constructor
      · simp only [addProfileNote, if_neg h]
        rw [List.take_cons (by omega), List.dropLast_eq_take, hlen]
      · simp [addProfileNote, h, List.length_take, hlen]
    · intro hlen
      simp [addProfileNote, h, hlen]

/-- Concrete run of `addProfileNote_spec` on ten displayed notes over ten
stored rows: a whitespace-only body changes nothing, and a real body
keeps the displayed list at 10 while storage grows to 11. -/
theorem addProfileNote_spec_witness :
    addProfileNote "n11" 99 "d1" " " sampleNotesState = sampleNotesState ∧
    (addProfileNote "n11" 99 "d1" "hello" sampleNotesState).notes.length
      = 10 ∧
    (addProfileNote "n11" 99 "d1" "hello" sampleNotesState).stored.length
      = 11 := by
  refine ⟨(addProfileNote_spec "n11" 99 "d1" " " sampleNotesState).1
      (by decide), ?_⟩
  obtain ⟨note, _, _, _, _, _, h6, h7⟩ :=
    (addProfileNote_spec "n11" 99 "d1" "hello" sampleNotesState).2
      (by decide)
  exact ⟨(h6 (by decide)).2, h7 (by decide)⟩
